import Mathlib

/-!
Verification of the hireling-mysql job store (MysqlEngine).

The repository holds two near-duplicate generations of the same engine:
`src/src/index.ts` (sproc `atomicFindReady`, counter column `attempts`,
`refreshExpired`/`refreshStalled`/`removeByStatus`) and
`src/unnamed/part_000` (sproc `reserve_sproc`, `get`/`remove`/`clear`).
Both build SQL statements against a single `jobs` table.  We embed the
table as a list of rows (insertion order = the order `LIMIT 1` without
`ORDER BY` scans the clustered data in this small setting), each SQL
statement as a pure function on that list, and the stored procedure both
sequentially (one session) and as a small-step machine of two interleaved
sessions to examine the claimed mutual exclusion.
-/

/-- The `status` enum of the jobs table:
`ENUM('ready', 'processing', 'done', 'failed')`. -/
inductive JobStatus
  | ready
  | processing
  | done
  | failed
deriving DecidableEq, Repr

/-- A stored row of the jobs table, with the columns declared by
`initSchema` / `createTable`.  Timestamps (`created`, `expires`, `stalls`)
are integers (milliseconds); nullable columns are `Option`.  `data` is the
stored `LONGTEXT` payload, i.e. the packed blob, `none` for SQL NULL. -/
structure Row where
  id : String
  workerid : Option String
  name : Option String
  created : Int
  expires : Option Int
  expirems : Option Int
  stalls : Option Int
  stallms : Option Int
  status : JobStatus
  attempts : Nat
  data : Option String
deriving DecidableEq, Repr

/-- The jobs table: rows in insertion order. -/
abbrev Table := List Row

/-- Errors surfaced by the engine: MySQL errors (duplicate key on insert,
duplicate index, SQL syntax errors from empty SET/WHERE clauses,
connectivity failures) and the engine's own thrown
`updated/deleted N jobs instead of 1` error. -/
inductive DbError
  | dupKey
  | dupIndex
  | badSql
  | connectivity
  | notOneRow (n : Nat)
  | other
deriving DecidableEq, Repr

/-- Modelled from the spec: the payload codec (`hireling/serializer`, an
external collaborator not under `src/`) "turns an arbitrary value into a
storable blob and back": `unpack (pack v) = v`.  `pack_nonempty` records
that the blob of a present payload is a non-empty (truthy) string, as a
JSON-style serialization produces. -/
structure Codec (α : Type) where
  pack : α → String
  unpack : String → α
  pack_nonempty : ∀ v, pack v ≠ ""
  roundtrip : ∀ v, unpack (pack v) = v

/-- An application-level job record (`JobAttr`), whose `data` field is the
decoded payload value. -/
structure JobAttr (α : Type) where
  id : String
  workerid : Option String
  name : Option String
  created : Int
  expires : Option Int
  expirems : Option Int
  stalls : Option Int
  stallms : Option Int
  status : JobStatus
  attempts : Nat
  data : Option α
deriving DecidableEq, Repr

/-- `add`'s row construction: every field is inserted as given, except the
`data` value which is passed through `Serializer.pack` first
(`vals.push((key === 'data') ? Serializer.pack(val) : val)`). -/
def toRow {α : Type} (c : Codec α) (j : JobAttr α) : Row :=
  { id := j.id, workerid := j.workerid, name := j.name, created := j.created
    expires := j.expires, expirems := j.expirems, stalls := j.stalls
    stallms := j.stallms, status := j.status, attempts := j.attempts
    data := j.data.map c.pack }

/-- `fromMysql`: decodes a fetched row; the payload is unpacked only when
the stored `data` is truthy (`if (mobj.data)`), i.e. non-NULL and not the
empty string; a falsy blob is left alone, which for the typed record means
no decoded payload. -/
def fromMysql {α : Type} (c : Codec α) (r : Row) : JobAttr α :=
  { id := r.id, workerid := r.workerid, name := r.name, created := r.created
    expires := r.expires, expirems := r.expirems, stalls := r.stalls
    stallms := r.stallms, status := r.status, attempts := r.attempts
    data := match r.data with
      | none => none
      | some s => if s = "" then none else some (c.unpack s) }

/-- `add(job)`: `INSERT INTO jobs (...) VALUES (...)` with the packed
payload.  The table's `PRIMARY KEY (id)` / `UNIQUE INDEX id_UNIQUE`
rejects a duplicate id with a duplicate-key error. -/
def add {α : Type} (c : Codec α) (j : JobAttr α) (t : Table) :
    Except DbError Table :=
  if t.any (fun r => r.id = j.id) then .error .dupKey
  else .ok (t ++ [toRow c j])

/-- `getById(id)`: `SELECT * FROM jobs WHERE id = ?`, first row or null,
decoded by `fromMysql`. -/
def getById {α : Type} (c : Codec α) (id : String) (t : Table) :
    Option (JobAttr α) :=
  (t.find? (fun r => r.id = id)).map (fromMysql c)

/-- The stored procedure's claim query:
`SELECT id INTO @j_id FROM jobs WHERE status = 'ready' LIMIT 1`. -/
def findReadyId (t : Table) : Option String :=
  (t.find? (fun r => r.status = JobStatus.ready)).map (fun r => r.id)

/-- The stored procedure's claim update:
`UPDATE jobs SET status = 'processing' WHERE id = @j_id`
(note: no `status = 'ready'` guard and no other column is touched). -/
def setProcessing (t : Table) (i : String) : Table :=
  t.map (fun r =>
    if r.id = i then { r with status := JobStatus.processing } else r)

/-- `reserve(wId)` / `atomicFindReady(wId)` run sequentially (one session):
`CALL sproc()` — the worker id is not passed to the procedure.  The
procedure selects one ready id; if found, marks the row `processing`; the
final `SELECT * FROM jobs WHERE id = @j_id` (reading the session's own
write) returns the row, decoded by `fromMysql`; with `@j_id` NULL it
returns no row and the client maps that to null. -/
def reserve {α : Type} (c : Codec α) (wId : String) (t : Table) :
    Option (JobAttr α) × Table :=
  match findReadyId t with
  | none => (none, t)
  | some i =>
    let t2 := setProcessing t i
    ((t2.find? (fun r => r.id = i)).map (fromMysql c), t2)

/-- The lease-expiry scan's WHERE predicate:
`status = 'processing' AND expires <= now` (a NULL `expires` compares to
nothing, so such rows never match). -/
def expiredPred (now : Int) (r : Row) : Bool :=
  r.status = JobStatus.processing &&
    match r.expires with
    | some e => e ≤ now
    | none => false

/-- The stall scan's WHERE predicate:
`status = 'processing' AND stalls <= now`. -/
def stalledPred (now : Int) (r : Row) : Bool :=
  r.status = JobStatus.processing &&
    match r.stalls with
    | some s => s ≤ now
    | none => false

/-- The lease-expiry scan's SET clause: `status = 'ready'`,
`workerid = NULL`, `attempts = attempts + 1`,
`expires = DATE_ADD(NOW(), INTERVAL (expirems / 1000) SECOND)` — i.e.
`now` plus the lease duration, NULL when `expirems` is NULL. -/
def refreshExpiredRow (now : Int) (r : Row) : Row :=
  { r with status := JobStatus.ready, workerid := none
           attempts := r.attempts + 1
           expires := r.expirems.map (fun m => now + m) }

/-- The stall scan's SET clause: same requeue, but recomputing
`stalls = DATE_ADD(NOW(), INTERVAL (stallms / 1000) SECOND)`. -/
def refreshStalledRow (now : Int) (r : Row) : Row :=
  { r with status := JobStatus.ready, workerid := none
           attempts := r.attempts + 1
           stalls := r.stallms.map (fun m => now + m) }

/-- `refreshExpired()`: one bulk UPDATE; returns the new table and
`affectedRows` (every matched row is changed, since its status flips from
`processing` to `ready`). -/
def refreshExpired (now : Int) (t : Table) : Table × Nat :=
  (t.map (fun r => if expiredPred now r then refreshExpiredRow now r else r),
   (t.filter (expiredPred now)).length)

/-- `refreshStalled()`: one bulk UPDATE; returns the new table and
`affectedRows`. -/
def refreshStalled (now : Int) (t : Table) : Table × Nat :=
  (t.map (fun r => if stalledPred now r then refreshStalledRow now r else r),
   (t.filter (stalledPred now)).length)

/-- A field/value pair of a `Partial<JobAttr>` object, as used for
`updateById`'s dynamic SET clause and `get`/`remove`'s dynamic WHERE
clause.  Values are passed raw (not through the codec): a `data` entry
compares against / overwrites the stored LONGTEXT directly. -/
inductive FieldVal
  | id (v : String)
  | workerid (v : Option String)
  | name (v : Option String)
  | created (v : Int)
  | expires (v : Option Int)
  | expirems (v : Option Int)
  | stalls (v : Option Int)
  | stallms (v : Option Int)
  | status (v : JobStatus)
  | attempts (v : Nat)
  | data (v : Option String)
deriving DecidableEq, Repr

/-- Assignment `field = value` applied to a row (one item of the SET
clause). -/
def setField (r : Row) : FieldVal → Row
  | .id v => { r with id := v }
  | .workerid v => { r with workerid := v }
  | .name v => { r with name := v }
  | .created v => { r with created := v }
  | .expires v => { r with expires := v }
  | .expirems v => { r with expirems := v }
  | .stalls v => { r with stalls := v }
  | .stallms v => { r with stallms := v }
  | .status v => { r with status := v }
  | .attempts v => { r with attempts := v }
  | .data v => { r with data := v }

/-- All assignments of a SET clause applied left to right. -/
def applyFields (values : List FieldVal) (r : Row) : Row :=
  values.foldl setField r

/-- Equality test `field = value` of one WHERE-clause conjunct. -/
def matchesField (r : Row) : FieldVal → Bool
  | .id v => r.id = v
  | .workerid v => r.workerid = v
  | .name v => r.name = v
  | .created v => r.created = v
  | .expires v => r.expires = v
  | .expirems v => r.expirems = v
  | .stalls v => r.stalls = v
  | .stallms v => r.stallms = v
  | .status v => r.status = v
  | .attempts v => r.attempts = v
  | .data v => r.data = v

/-- Conjunctive WHERE clause built from a query filter's fields. -/
def matchesQuery (q : List FieldVal) (r : Row) : Bool :=
  q.all (matchesField r)

/-- `updateById(id, values)`:
`UPDATE jobs SET k1 = ?, ... WHERE id = ?`.  An empty `values` object
yields an empty SET clause (`UPDATE jobs SET WHERE id = ?`), which MySQL
rejects as a syntax error before touching any row.  Otherwise
`affectedRows` counts the rows actually changed (mysql2's default, no
CLIENT_FOUND_ROWS); a falsy count makes the engine throw
`updated 0 jobs instead of 1`. -/
def updateById (id : String) (values : List FieldVal) (t : Table) :
    Except DbError Table :=
  if values.isEmpty then .error .badSql
  else
    let changed := t.countP (fun r => r.id = id && applyFields values r ≠ r)
    if changed = 0 then .error (.notOneRow 0)
    else .ok (t.map (fun r => if r.id = id then applyFields values r else r))

/-- `removeById(id)`: `DELETE FROM jobs WHERE id = ?`; a falsy
`affectedRows` makes the engine throw `deleted 0 jobs instead of 1`,
otherwise it returns `true`. -/
def removeById (id : String) (t : Table) : Except DbError (Table × Bool) :=
  let n := t.countP (fun r => r.id = id)
  if n = 0 then .error (.notOneRow 0)
  else .ok (t.filter (fun r => !(r.id = id)), true)

/-- `get(query)`: `SELECT * FROM jobs WHERE k1 = ? AND ...`; an empty
query yields an empty WHERE clause (`... WHERE`), a MySQL syntax error.
Result rows are decoded by `fromMysql`. -/
def get {α : Type} (c : Codec α) (q : List FieldVal) (t : Table) :
    Except DbError (List (JobAttr α)) :=
  if q.isEmpty then .error .badSql
  else .ok ((t.filter (matchesQuery q)).map (fromMysql c))

/-- `remove(query)`: `DELETE FROM jobs WHERE k1 = ? AND ...`; an empty
query yields an empty WHERE clause, a MySQL syntax error; otherwise
returns `affectedRows` (the number of deleted rows). -/
def remove (q : List FieldVal) (t : Table) : Except DbError (Table × Nat) :=
  if q.isEmpty then .error .badSql
  else .ok (t.filter (fun r => !(matchesQuery q r)), t.countP (matchesQuery q))

/-- `removeByStatus(status)`: `DELETE FROM jobs WHERE status = ?`;
returns `affectedRows`. -/
def removeByStatus (s : JobStatus) (t : Table) : Table × Nat :=
  (t.filter (fun r => !(r.status = s)), t.countP (fun r => r.status = s))

/-- `clear()`: `DELETE FROM jobs`; returns `affectedRows`. -/
def clear (t : Table) : Table × Nat :=
  ([], t.length)

/-- The store's outcome of each statement run by schema bootstrap
(`none` = success): `CREATE TABLE IF NOT EXISTS`, then one
`ALTER TABLE ... ADD INDEX` per index, then
`DROP PROCEDURE IF EXISTS` and `CREATE PROCEDURE`. -/
structure BootstrapOutcomes where
  createTable : Option DbError
  addIndexes : List (Option DbError)
  dropProc : Option DbError
  createProc : Option DbError
deriving DecidableEq, Repr

/-- The error each index-creation step lets escape.  In the source the
loop body is `try { await execute(i) } catch (err) { /* ignore existing
index errors */ }`: the catch binds every error unconditionally, so no
index-creation outcome whatsoever escapes the loop. -/
def indexStepEscape (outcome : Option DbError) : Option DbError :=
  match outcome with
  | _ => none

/-- The first error of a sequence of per-statement escapes: an async
function propagates the first rejection and runs nothing after it. -/
def firstEscape (l : List (Option DbError)) : Option DbError :=
  (l.filterMap (fun x => x)).head?

/-- `initSchema` / `createTable` error flow: the table statement and the
two procedure statements run bare (their errors propagate); each index
statement runs inside the unconditional try/catch. -/
def initSchema (o : BootstrapOutcomes) : Option DbError :=
  firstEscape
    ([o.createTable] ++ o.addIndexes.map indexStepEscape
      ++ [o.dropProc, o.createProc])

/-- The bootstrap error policy the spec claims: only duplicate-index
errors are swallowed by the index steps; every other error propagates. -/
def indexStepEscapeClaim (outcome : Option DbError) : Option DbError :=
  match outcome with
  | some DbError.dupIndex => none
  | x => x

/-- Bootstrap error flow under the claimed policy, for comparison with
`initSchema`. -/
def initSchemaClaim (o : BootstrapOutcomes) : Option DbError :=
  firstEscape
    ([o.createTable] ++ o.addIndexes.map indexStepEscapeClaim
      ++ [o.dropProc, o.createProc])

/-- One client statement of the stored procedure's body, in program
order: the claim SELECT, the conditional UPDATE, the final row fetch. -/
inductive ProcStep
  | select
  | update
  | fetch
deriving DecidableEq, Repr

/-- A session executing the stored procedure: its `@j_id` variable and
the row its final SELECT produced. -/
structure Session where
  jid : Option String
  res : Option Row
deriving DecidableEq, Repr

/-- A fresh session, before any statement ran. -/
def initSession : Session := { jid := none, res := none }

/-- Effect of one statement of the procedure run by one session over the
shared table.  `SELECT ... WHERE status = 'ready' LIMIT 1` carries no
`FOR UPDATE`, so under InnoDB it is a non-locking consistent read: it can
run while another session is mid-procedure and still see a row that
session is about to claim.  The `UPDATE ... WHERE id = @j_id` does take
the row lock, so concurrent updates serialize — but its WHERE clause
checks only the id, never that the row is still `ready`, so a second
update of an already-claimed row succeeds all the same. -/
def stepProc (t : Table) (s : Session) : ProcStep → Table × Session
  | .select => (t, { s with jid := findReadyId t })
  | .update =>
    match s.jid with
    | some i => (setProcessing t i, s)
    | none => (t, s)
  | .fetch =>
    (t, { s with res := s.jid.bind (fun i => t.find? (fun r => r.id = i)) })

/-- The shared table plus two concurrent sessions A and B. -/
structure RaceState where
  table : Table
  sa : Session
  sb : Session
deriving DecidableEq, Repr

/-- One scheduled statement: `true` schedules session A, `false`
session B. -/
def raceStep (st : RaceState) : Bool × ProcStep → RaceState
  | (isA, p) =>
    if isA then
      let ts := stepProc st.table st.sa p
      { st with table := ts.1, sa := ts.2 }
    else
      let ts := stepProc st.table st.sb p
      { st with table := ts.1, sb := ts.2 }

/-- Run an interleaving of the two sessions' statements over an initial
table. -/
def runSchedule (t : Table) (sched : List (Bool × ProcStep)) : RaceState :=
  sched.foldl raceStep { table := t, sa := initSession, sb := initSession }

/-- The racy interleaving: both sessions run their claim SELECT before
either UPDATE commits (legal, since the SELECT takes no lock), then each
completes its procedure in program order. -/
def raceSchedule : List (Bool × ProcStep) :=
  [(true, .select), (false, .select), (true, .update), (true, .fetch),
   (false, .update), (false, .fetch)]

/-- A concrete codec instance (payload type `Bool`) used to instantiate
witness theorems. -/
def codecB : Codec Bool :=
  { pack := fun b => if b then "T" else "F"
    unpack := fun s => s = "T"
    pack_nonempty := by intro v; cases v <;> decide
    roundtrip := by intro v; cases v <;> rfl }

/-- A sample stored row used in witness theorems. -/
def rowJ1 : Row :=
  { id := "j1", workerid := some "w0", name := none, created := 0
    expires := some 100, expirems := some 5000, stalls := some 900
    stallms := some 60000, status := JobStatus.processing
    attempts := 0, data := none }

/-- A sample ready row used in witness theorems. -/
def rowR1 : Row :=
  { id := "r1", workerid := none, name := some "n", created := 0
    expires := none, expirems := some 5000, stalls := none
    stallms := some 60000, status := JobStatus.ready
    attempts := 0, data := some "#x" }

/-- A processing row with a still-future lease but a lapsed stall
deadline, used in witness theorems. -/
def rowC4 : Row :=
  { rowJ1 with expires := some 5000, stalls := some 10 }

/-- A sample application-level job record (payload `true`) used in
witness theorems. -/
def jW : JobAttr Bool :=
  { id := "jw", workerid := none, name := none, created := 5
    expires := none, expirems := none, stalls := none, stallms := none
    status := JobStatus.ready, attempts := 0, data := some true }

/-- Splitting a list's length by a Boolean predicate. -/
theorem length_filter_add_length_filter_not {β : Type} (p : β → Bool)
    (l : List β) :
    (l.filter p).length + (l.filter (fun x => !(p x))).length = l.length := by
  induction l with
  | nil => rfl
  | cons a l ih =>
    by_cases h : p a = true <;>
      simp [List.filter_cons, h, ih, Nat.succ_eq_add_one] <;> omega

/-- C1: the spec demands that for concurrent reservation calls against a
store with exactly one ready job, exactly one call returns that job and
the other returns null, the same job id never being handed out twice.
The stored procedure's claim SELECT carries no `FOR UPDATE` and its
UPDATE's WHERE clause has no `status = 'ready'` guard, so the interleaving
`raceSchedule` — both sessions' non-locking SELECTs before either UPDATE —
is admissible, and in it each session runs its three statements in program
order (first two conjuncts) over a table whose only ready job is `r1`
(third conjunct), yet both sessions' calls return job `r1` (last two
conjuncts), contradicting the claim. -/
theorem c1_both_callers_get_same_job :
    ((raceSchedule.filter (fun x => x.1 = true)).map Prod.snd
        = [ProcStep.select, ProcStep.update, ProcStep.fetch]) ∧
    ((raceSchedule.filter (fun x => x.1 = false)).map Prod.snd
        = [ProcStep.select, ProcStep.update, ProcStep.fetch]) ∧
    (rowR1.status = JobStatus.ready ∧
      ∀ r ∈ [rowR1], r.status = JobStatus.ready → r.id = "r1") ∧
    ((runSchedule [rowR1] raceSchedule).sa.res.map Row.id = some "r1") ∧
    ((runSchedule [rowR1] raceSchedule).sb.res.map Row.id = some "r1") := by
  decide

/-- C5: when no ready row exists, `reserve` returns null and leaves the
table untouched; the empty result is the procedure's normal path (`@j_id`
stays NULL), not an error. -/
theorem c5_reserve_no_ready_returns_null {α : Type} (c : Codec α)
    (w : String) (t : Table) (h : ∀ r ∈ t, r.status ≠ JobStatus.ready) :
    reserve c w t = (none, t) := by
  have hf : t.find? (fun r => r.status = JobStatus.ready) = none := by
    rw [List.find?_eq_none]
    intro x hx
    simp only [decide_eq_true_eq]
    exact h x hx
  simp [reserve, findReadyId, hf]

/-- C5 witness: a table whose only job is `processing`. -/
theorem c5_witness :
    (∀ r ∈ [rowJ1], r.status ≠ JobStatus.ready) ∧
    reserve codecB "workerA" [rowJ1] = (none, [rowJ1]) :=
  ⟨by decide, c5_reserve_no_ready_returns_null codecB "workerA" [rowJ1]
    (by decide)⟩

/-- C6: the claim says only duplicate-index (and duplicate-procedure)
errors are swallowed during bootstrap and everything else propagates; but
the index loop's catch is unconditional, so a connectivity error raised by
`ALTER TABLE ... ADD INDEX` is silently swallowed (`initSchema` reports
success), where the claimed policy (`initSchemaClaim`) would propagate
it.  The code contradicts its own inline comment, which announces ignoring
only "existing index errors". -/
theorem c6_bootstrap_swallows_nonduplicate_index_error :
    initSchema { createTable := none,
                 addIndexes := [some DbError.connectivity],
                 dropProc := none, createProc := none } = none ∧
    initSchemaClaim { createTable := none,
                      addIndexes := [some DbError.connectivity],
                      dropProc := none, createProc := none }
        = some DbError.connectivity ∧
    DbError.connectivity ≠ DbError.dupIndex := by
  decide

/-- C10: an empty partial object yields an empty SET clause in
`updateById` and an empty WHERE clause in `get`/`remove`; MySQL rejects
the malformed statement, so each call fails for every table — `updateById`
even when the row exists, `get`/`remove` instead of matching all rows. -/
theorem c10_empty_clause_always_errors {α : Type} (c : Codec α)
    (i : String) (t : Table) :
    updateById i [] t = Except.error DbError.badSql ∧
    get c [] t = Except.error DbError.badSql ∧
    remove [] t = Except.error DbError.badSql :=
  ⟨rfl, rfl, rfl⟩

/-- C3: the lease-expiry scan touches exactly the rows whose status is
`processing` with a (non-NULL) `expires` at or before `now`; each such row
becomes `ready` with `workerid` NULL, `attempts` one higher and `expires`
recomputed to `now` plus the lease duration (NULL when `expirems` is
NULL); every other row is returned verbatim, and the scan's return value
counts the affected rows. -/
theorem c3_refreshExpired_affects_exactly_expired (now : Int) (t : Table) :
    ((refreshExpired now t).2 = (t.filter (expiredPred now)).length) ∧
    (∀ r : Row, expiredPred now r = true ↔
        (r.status = JobStatus.processing ∧
          ∃ e, r.expires = some e ∧ e ≤ now)) ∧
    ((refreshExpired now t).1.length = t.length) ∧
    (∀ i : Nat, ∀ r : Row, t[i]? = some r →
      (expiredPred now r = true →
        (refreshExpired now t).1[i]? = some
          { r with status := JobStatus.ready, workerid := none,
                   attempts := r.attempts + 1,
                   expires := r.expirems.map (fun m => now + m) }) ∧
      (expiredPred now r = false →
        (refreshExpired now t).1[i]? = some r)) := by
  refine ⟨rfl, ?_, by simp [refreshExpired], ?_⟩
  · intro r
    cases hre : r.expires with
    | none => simp [expiredPred, hre]
    | some e => simp [expiredPred, hre]
  · intro i r hr
    have hm : (refreshExpired now t).1[i]? = (t[i]?).map
        (fun r => if expiredPred now r then refreshExpiredRow now r else r) := by
      simp [refreshExpired, List.getElem?_map]
    rw [hr] at hm
    constructor
    · intro h
      rw [hm]
      simp [h, refreshExpiredRow]
    · intro h
      rw [hm]
      simp [h]

/-- C3 witness: at `now = 1000`, the single processing row with lease
deadline 100 is requeued with `attempts` bumped to 1 and a fresh deadline
`1000 + 5000`, and the scan reports one affected row. -/
theorem c3_witness :
    (refreshExpired 1000 [rowJ1]).2 = 1 ∧
    (refreshExpired 1000 [rowJ1]).1[0]? = some
      { rowJ1 with status := JobStatus.ready, workerid := none,
                   attempts := 1, expires := some 6000 } := by
  have h := c3_refreshExpired_affects_exactly_expired 1000 [rowJ1]
  constructor
  · rw [h.1]
    decide
  · have h4 := (h.2.2.2 0 rowJ1 (by decide)).1 (by decide)
    rw [h4]
    decide

/-- C4: the two recovery scans are independent — a processing row whose
lease deadline is still in the future but whose stall deadline has passed
is left verbatim by the lease scan and requeued by the stall scan (status
`ready`, `workerid` NULL, `attempts` one higher, `stalls` recomputed). -/
theorem c4_stall_scan_independent_of_lease_scan (now : Int) (t : Table)
    (i : Nat) (r : Row) (hr : t[i]? = some r)
    (hst : r.status = JobStatus.processing)
    (e s : Int) (he : r.expires = some e) (hnow : now < e)
    (hs : r.stalls = some s) (hsn : s ≤ now) :
    (refreshExpired now t).1[i]? = some r ∧
    (refreshStalled now t).1[i]? = some
      { r with status := JobStatus.ready, workerid := none,
               attempts := r.attempts + 1,
               stalls := r.stallms.map (fun m => now + m) } := by
  have hep : expiredPred now r = false := by
    simp [expiredPred, he, hst]
    omega
  have hsp : stalledPred now r = true := by
    simp [stalledPred, hs, hst]
    omega
  constructor
  · simp [refreshExpired, List.getElem?_map, hr, hep]
  · simp [refreshStalled, List.getElem?_map, hr, hsp, refreshStalledRow]

/-- C4 witness: at `now = 500`, a processing row with lease deadline 5000
(future) and stall deadline 10 (past) survives the lease scan unchanged
and is requeued by the stall scan with `stalls = 500 + 60000`. -/
theorem c4_witness :
    (refreshExpired 500 [rowC4]).1[0]? = some rowC4 ∧
    (refreshStalled 500 [rowC4]).1[0]? = some
      { rowC4 with status := JobStatus.ready, workerid := none,
                   attempts := 1, stalls := some 60500 } := by
  have h := c4_stall_scan_independent_of_lease_scan 500 [rowC4] 0 rowC4
      (by decide) (by decide) 5000 10 (by decide) (by decide) (by decide)
      (by decide)
  refine ⟨h.1, ?_⟩
  rw [h.2]
  decide

/-- C9: the bulk deletes succeed and report exactly the number of rows
they removed, zero included: `remove` (with a non-empty filter),
`removeByStatus` and `clear` each return a count equal to the number of
rows that left the table, and `removeByStatus 'done'` on a table with no
`done` jobs reports 0 rows deleted. -/
theorem c9_bulk_delete_counts (q : List FieldVal) (s : JobStatus)
    (t : Table) (hq : q ≠ []) :
    (∃ p, remove q t = Except.ok p ∧ p.2 = t.length - p.1.length) ∧
    ((removeByStatus s t).2
        = t.length - (removeByStatus s t).1.length) ∧
    ((clear t).2 = t.length - (clear t).1.length) ∧
    ((∀ r ∈ t, r.status ≠ JobStatus.done) →
      (removeByStatus JobStatus.done t).2 = 0) := by
  refine ⟨?_, ?_, by simp [clear], ?_⟩
  · cases q with
    | nil => exact absurd rfl hq
    | cons a q' =>
      refine ⟨_, rfl, ?_⟩
      dsimp only
      rw [List.countP_eq_length_filter]
      have hsplit := length_filter_add_length_filter_not
        (matchesQuery (a :: q')) t
      omega
  · simp only [removeByStatus]
    rw [List.countP_eq_length_filter]
    have hsplit := length_filter_add_length_filter_not
      (fun r : Row => decide (r.status = s)) t
    omega
  · intro h
    simp only [removeByStatus]
    rw [List.countP_eq_zero]
    intro a ha
    simp only [decide_eq_true_eq]
    exact h a ha

/-- C9 witness: one ready job; `removeByStatus 'done'` deletes nothing
and reports 0 without error. -/
theorem c9_witness : (removeByStatus JobStatus.done [rowR1]).2 = 0 := by
  have h := c9_bulk_delete_counts [FieldVal.status JobStatus.done]
      JobStatus.done [rowR1] (by decide)
  exact h.2.2.2 (by decide)

/-- C7: when no row carries the requested id, `updateById` (with a
non-empty SET clause) and `removeById` both throw the
`... 0 jobs instead of 1` error; and on a table holding exactly one row
with the id, `removeById` deletes it and returns `true`. -/
theorem c7_not_exactly_one_row (i : String) (values : List FieldVal)
    (t t2 : Table) (hv : values ≠ [])
    (habsent : ∀ r ∈ t, r.id ≠ i)
    (hone : t2.countP (fun r => r.id = i) = 1) :
    updateById i values t = Except.error (DbError.notOneRow 0) ∧
    removeById i t = Except.error (DbError.notOneRow 0) ∧
    removeById i t2
        = Except.ok (t2.filter (fun r => !(r.id = i)), true) := by
  have hid0 : t.countP (fun r => r.id = i) = 0 := by
    rw [List.countP_eq_zero]
    intro a ha
    simp only [decide_eq_true_eq]
    exact habsent a ha
  refine ⟨?_, ?_, ?_⟩
  · cases values with
    | nil => exact absurd rfl hv
    | cons v vs =>
      simp [updateById]
      intro x hx hxi
      exact absurd hxi (habsent x hx)
  · simp [removeById, hid0]
  · simp [removeById, hone]

/-- C7 witness: no row with id `r1` in `[rowJ1]` — both point operations
throw the zero-rows error; `[rowR1]` holds exactly that row — deleting it
succeeds with `true`. -/
theorem c7_witness :
    updateById "r1" [FieldVal.status JobStatus.done] [rowJ1]
        = Except.error (DbError.notOneRow 0) ∧
    removeById "r1" [rowJ1] = Except.error (DbError.notOneRow 0) ∧
    removeById "r1" [rowR1] = Except.ok (([] : Table), true) := by
  have h := c7_not_exactly_one_row "r1" [FieldVal.status JobStatus.done]
      [rowJ1] [rowR1] (by decide) (by decide) (by decide)
  refine ⟨h.1, h.2.1, ?_⟩
  rw [h.2.2]
  rfl

/-- Point lookup by id commutes with the claim UPDATE: if the first row
carrying id `i` is `r`, then after `setProcessing t i` the first row
carrying `i` is `r` marked `processing`. -/
theorem find?_setProcessing_eq (t : Table) (i : String) (r : Row)
    (h : t.find? (fun x => x.id = i) = some r) :
    (setProcessing t i).find? (fun x => x.id = i)
        = some { r with status := JobStatus.processing } := by
  induction t with
  | nil => simp [List.find?] at h
  | cons a l ih =>
    by_cases ha : a.id = i
    · rw [List.find?_cons_of_pos _ (by simpa using ha)] at h
      cases h
      simp only [setProcessing, List.map_cons, if_pos ha]
      rw [List.find?_cons_of_pos _ (by simpa using ha)]
    · rw [List.find?_cons_of_neg _ (by simpa using ha)] at h
      simp only [setProcessing, List.map_cons, if_neg ha]
      rw [List.find?_cons_of_neg _ (by simpa using ha)]
      exact ih h

/-- C2 counterexample: the claim says `reserve(workerA)` hands back the
job with `workerid = "workerA"`; against a table whose one ready job has
`workerid` NULL, `reserve codecB "workerA"` returns a job whose
`workerid` is still NULL, not `"workerA"` — the worker id never reaches
the stored procedure. -/
theorem c2_counterexample :
    ((reserve codecB "workerA" [rowR1]).1.map (fun j => j.workerid))
        = some none ∧
    (none : Option String) ≠ some "workerA" := by
  decide

/-- C2 as amended: `reserve(w)` on a table whose first ready row is `r`
(ids unique, as the primary key enforces) returns that job with
`status = 'processing'` but with `workerid` unchanged — NULL for a ready
row — since the stored procedure only flips the status and the worker id
argument is not transmitted to it. -/
theorem c2_reserve_marks_processing_keeps_workerid {α : Type}
    (c : Codec α) (w : String) (t : Table) (r : Row)
    (hfind : t.find? (fun x => x.status = JobStatus.ready) = some r)
    (hu : ∀ r1 ∈ t, ∀ r2 ∈ t, r1.id = r2.id → r1 = r2) :
    ∃ j, (reserve c w t).1 = some j ∧ j.id = r.id ∧
      j.status = JobStatus.processing ∧ j.workerid = r.workerid := by
  have hmem : r ∈ t := List.mem_of_find?_eq_some hfind
  have hfid : findReadyId t = some r.id := by
    simp [findReadyId, hfind]
  have hfind2 : t.find? (fun x => x.id = r.id) = some r := by
    cases hcase : t.find? (fun x => x.id = r.id) with
    | none =>
      rw [List.find?_eq_none] at hcase
      exact absurd (by simp) (hcase r hmem)
    | some q =>
      have hq : q.id = r.id := by simpa using List.find?_some hcase
      have hqm : q ∈ t := List.mem_of_find?_eq_some hcase
      rw [hu q hqm r hmem hq]
  have hmap := find?_setProcessing_eq t r.id r hfind2
  refine ⟨fromMysql c { r with status := JobStatus.processing },
    ?_, ?_, ?_, ?_⟩
  · simp [reserve, hfid, hmap]
  · simp [fromMysql]
  · simp [fromMysql]
  · simp [fromMysql]

/-- C2 witness: one ready row `rowR1` with NULL `workerid`; the reserved
job keeps id `r1`, turns `processing`, and its `workerid` equals
`rowR1.workerid` (NULL), not the caller's id. -/
theorem c2_witness :
    ∃ j : JobAttr Bool, (reserve codecB "workerA" [rowR1]).1 = some j ∧
      j.id = rowR1.id ∧ j.status = JobStatus.processing ∧
      j.workerid = rowR1.workerid :=
  c2_reserve_marks_processing_keeps_workerid codecB "workerA" [rowR1]
    rowR1 (by decide) (by decide)

/-- Decoding inverts `add`'s row construction: the non-payload columns
are copied and the packed payload — a non-empty blob — is unpacked back
to the original value. -/
theorem fromMysql_toRow {α : Type} (c : Codec α) (j : JobAttr α) :
    fromMysql c (toRow c j) = j := by
  cases j with
  | mk id workerid name created expires expirems stalls stallms
      status attempts data =>
    cases data with
    | none => simp [fromMysql, toRow]
    | some d => simp [fromMysql, toRow, c.pack_nonempty d, c.roundtrip d]

/-- `find?` skips a prefix containing no match. -/
theorem find?_append_of_none {β : Type} (p : β → Bool) (l1 l2 : List β)
    (h : l1.find? p = none) : (l1 ++ l2).find? p = l2.find? p := by
  rw [List.find?_append, h]
  rfl

/-- C8: on a table containing no row with the new job's id, `add`
succeeds (appending the packed row) and a subsequent `getById` returns
the record unchanged — in particular its `data`, packed on insert and
unpacked on read, deep-equals the value passed to `add`. -/
theorem c8_add_getById_roundtrip {α : Type} (c : Codec α) (j : JobAttr α)
    (t : Table) (h : ∀ r ∈ t, r.id ≠ j.id) :
    add c j t = Except.ok (t ++ [toRow c j]) ∧
    getById c j.id (t ++ [toRow c j]) = some j := by
  constructor
  · have hany : t.any (fun r => r.id = j.id) = false := by
      rw [List.any_eq_false]
      intro x hx
      simpa using h x hx
    simp [add, hany]
  · have hnone : t.find? (fun r => r.id = j.id) = none := by
      rw [List.find?_eq_none]
      intro x hx
      simpa using h x hx
    unfold getById
    rw [find?_append_of_none _ _ _ hnone]
    rw [List.find?_cons_of_pos _ (by simp [toRow])]
    simp [fromMysql_toRow]

/-- C8 witness: adding `jW` (payload `true`) to an empty table and
reading it back by id returns `jW` itself. -/
theorem c8_witness :
    add codecB jW [] = Except.ok ([] ++ [toRow codecB jW]) ∧
    getById codecB jW.id ([] ++ [toRow codecB jW]) = some jW :=
  c8_add_getById_roundtrip codecB jW [] (by simp)
